import Mathlib

/-!
Verification of the MCP chatbot repository: shallow embedding of the
JSON-RPC client bridge (mcp_client.py, git_analyzer_client.py), the
chatbot startup sequence (mcp_chatbot.py), the analyzer server dispatch
(git_analyzer_server.py) and the filesystem client path guard
(filesystem_client.py), together with theorems settling the spec claims.
-/

/-- A JSON value, as produced by json.loads / consumed by json.dumps. -/
inductive Json where
  | null : Json
  | bool (b : Bool) : Json
  | int (n : Int) : Json
  | str (s : String) : Json
  | arr (xs : List Json) : Json
  | obj (kvs : List (String × Json)) : Json

/-- First-match association lookup, the semantics of a Python dict built
from a literal with distinct keys. -/
def jlookup : List (String × Json) → String → Option Json
  | [], _ => none
  | (k, v) :: rest, key => if k = key then some v else jlookup rest key

namespace Json

/-- d.get(key): some value when present on an object, none otherwise. -/
def get? : Json → String → Option Json
  | .obj kvs, k => jlookup kvs k
  | _, _ => none

/-- d.get(key, default). -/
def getD (j : Json) (k : String) (d : Json) : Json := (j.get? k).getD d

/-- key in d. -/
def hasKey (j : Json) (k : String) : Bool := (j.get? k).isSome

end Json

/-- One line read from a stdout pipe, at the level json.loads sees it:
either a line json.loads raises on (with the exception message), or a
line that parses to a JSON value. A closed stream is the end of the
line list (readline then returns the empty string). -/
inductive ReadLine where
  | malformed (msg : String)
  | json (j : Json)

/-- A spawned backend process handle: the lines its stdout will yield,
the messages written to its stdin so far (oldest first), and whether the
child is still running. -/
structure Proc where
  stdoutLines : List ReadLine
  sent : List Json
  running : Bool

/-- The JSON-RPC request built by MCPClient.send_mcp_request, lines
126-131 of mcp_client.py: the id field is always the literal 1. -/
def mkRequest (method : String) (params : Json) : Json :=
  .obj [("jsonrpc", .str "2.0"), ("id", .int 1),
        ("method", .str method), ("params", params)]

/-- The success dictionary returned on line 154 of mcp_client.py. -/
def mkOk (d : Json) : Json := .obj [("success", .bool true), ("data", d)]

/-- The failure dictionary returned on lines 123, 144, 152, 158. -/
def mkErr (e : Json) : Json := .obj [("success", .bool false), ("error", e)]

/-- Failure dictionary with a string error message. -/
def mkErrStr (s : String) : Json := mkErr (.str s)

/-- Whether a character sequence occurs inside another. -/
def charListHasInfix : List Char → List Char → Bool
  | hay, needle =>
    match hay with
    | [] => needle.isEmpty
    | c :: rest => needle.isPrefixOf (c :: rest) || charListHasInfix rest needle

/-- Python membership of the literal "error" in a string: a substring
test. -/
def strContains (s sub : String) : Bool := charListHasInfix s.data sub.data

/-- Python membership of the literal "error" in a list: true exactly
when an element is the string "error" (an element of any other JSON
type compares unequal to a string). -/
def listHasStrError : List Json → Bool
  | [] => false
  | .str s :: rest => if s = "error" then true else listHasStrError rest
  | _ :: rest => listHasStrError rest

/-- Stand-in for the CPython exception texts raised when the error
membership test, the error indexing or response.get meets a
non-dictionary response (TypeError or AttributeError, wording varying
with the value type); no theorem depends on this string. -/
def nonDictMsg : String := "response is not a dictionary"

/-- MCPClient.send_mcp_request, mcp_client.py lines 116-158, for a
present process: build the id-1 request, write it, read ONE line; an
empty read (closed stream) yields the no-response error and a
json.loads failure is caught by the except branch. A dictionary
response with an error key yields that error, a dictionary without one
has response.get("result", the empty object) wrapped as success. Any
non-dictionary response ends in a raised exception caught by the
except branch: int, float, bool and None raise TypeError at the
membership test; a string or list that passes the membership test
raises at response["error"], and one that fails it raises
AttributeError at response.get; all become the normalized error.
GitAnalyzerClient.send_mcp_request lines 35-74 is the same code modulo
the server name. -/
def sendMcpRequestOn (p : Proc) (method : String) (params : Json) :
    Json × Proc :=
  let sent := p.sent ++ [mkRequest method params]
  match p.stdoutLines with
  | [] => (mkErrStr "No response from server", ⟨[], sent, p.running⟩)
  | line :: rest =>
    match line with
    | .malformed msg => (mkErrStr msg, ⟨rest, sent, p.running⟩)
    | .json resp =>
      match resp with
      | .obj kvs =>
        (match jlookup kvs "error" with
         | some e => (mkErr e, ⟨rest, sent, p.running⟩)
         | none =>
           (mkOk ((Json.obj kvs).getD "result" (.obj [])),
            ⟨rest, sent, p.running⟩))
      | _ => (mkErrStr nonDictMsg, ⟨rest, sent, p.running⟩)

/-- send_mcp_request including the not-started guard (line 122-123):
with no process it returns the "server not started" error. -/
def sendMcpRequestOpt (proc : Option Proc) (serverName : String)
    (method : String) (params : Json) : Json × Option Proc :=
  match proc with
  | none => (mkErrStr (serverName ++ " server not started"), none)
  | some p =>
    let rp := sendMcpRequestOn p method params
    (rp.1, some rp.2)

/-- MCPClient state: the two optional child processes (fields of the
Python object, mcp_client.py lines 15-16). -/
structure MCPClientState where
  filesystem_process : Option Proc
  git_process : Option Proc

/-- MCPClient.send_mcp_request with server selection by server_type
(line 119: filesystem when the string is "filesystem", git otherwise). -/
def MCPClientState.send_mcp_request (c : MCPClientState) (method : String)
    (params : Json) (serverType : String) : Json × MCPClientState :=
  if serverType = "filesystem" then
    let rp := sendMcpRequestOpt c.filesystem_process "Filesystem" method params
    (rp.1, ⟨rp.2, c.git_process⟩)
  else
    let rp := sendMcpRequestOpt c.git_process "Git" method params
    (rp.1, ⟨c.filesystem_process, rp.2⟩)

/-- The initialize request of MCPClient.init_mcp_connection, lines
69-81: note its id is also the literal 1. -/
def initRequest : Json :=
  .obj [("jsonrpc", .str "2.0"), ("id", .int 1), ("method", .str "initialize"),
        ("params", .obj
          [("protocolVersion", .str "2024-11-05"),
           ("capabilities", .obj []),
           ("clientInfo", .obj
             [("name", .str "mcp-chatbot"), ("version", .str "1.0.0")])])]

/-- The notifications/initialized notification, lines 100-103. -/
def initDoneNotification : Json :=
  .obj [("jsonrpc", .str "2.0"), ("method", .str "notifications/initialized")]

/-- MCPClient.init_mcp_connection body for a present process, lines
83-110: write the initialize request, read one line; an empty read or
a json.loads failure (except branch) yields False. The error
membership test follows Python semantics per response type: a
dictionary with an error key returns False; a string containing
"error" as a substring, or a list containing the string "error",
enters the error branch whose log f-string then raises at
response["error"], caught as False; an int, float, bool or None raises
TypeError at the membership test itself, caught as False. In every
remaining case - a dictionary without the key, a string or list
without "error" - the code proceeds, writes the initialized
notification and returns True. -/
def initMcpConnectionOn (p : Proc) : Bool × Proc :=
  let sent := p.sent ++ [initRequest]
  match p.stdoutLines with
  | [] => (false, ⟨[], sent, p.running⟩)
  | line :: rest =>
    match line with
    | .malformed _ => (false, ⟨rest, sent, p.running⟩)
    | .json resp =>
      match resp with
      | .obj kvs =>
        (match jlookup kvs "error" with
         | some _ => (false, ⟨rest, sent, p.running⟩)
         | none => (true, ⟨rest, sent ++ [initDoneNotification], p.running⟩))
      | .str s =>
        if strContains s "error" then (false, ⟨rest, sent, p.running⟩)
        else (true, ⟨rest, sent ++ [initDoneNotification], p.running⟩)
      | .arr xs =>
        if listHasStrError xs then (false, ⟨rest, sent, p.running⟩)
        else (true, ⟨rest, sent ++ [initDoneNotification], p.running⟩)
      | _ => (false, ⟨rest, sent, p.running⟩)

/-- init_mcp_connection including the no-process guard (lines 65-66). -/
def initMcpConnection : Option Proc → Bool × Option Proc
  | none => (false, none)
  | some p =>
    let bp := initMcpConnectionOn p
    (bp.1, some bp.2)

/-- subprocess.Popen: a fresh running process with nothing sent yet and
the given backend script on stdout. -/
def spawn (backend : List ReadLine) : Proc := ⟨backend, [], true⟩

/-- MCPClient.start_filesystem_server, lines 18-33: spawn the process
and return True. No handshake of any kind is performed. A Popen failure
is caught and returns False with the field unchanged. -/
def startFilesystemServer (spawnOk : Bool) (backend : List ReadLine)
    (c : MCPClientState) : Bool × MCPClientState :=
  if spawnOk then (true, ⟨some (spawn backend), c.git_process⟩)
  else (false, c)

/-- MCPClient.start_git_server, lines 35-57: spawn the git process,
then run init_mcp_connection on it; the result of the handshake is the
result of the start. -/
def startGitServer (spawnOk : Bool) (backend : List ReadLine)
    (c : MCPClientState) : Bool × MCPClientState :=
  if spawnOk then
    let bp := initMcpConnection (some (spawn backend))
    (bp.1, ⟨c.filesystem_process, bp.2⟩)
  else (false, c)

/-- MCPClient.filesystem_list_files, lines 160-168. -/
def MCPClientState.filesystem_list_files (c : MCPClientState)
    (path : String) : Json × MCPClientState :=
  c.send_mcp_request "tools/call"
    (.obj [("name", .str "list_directory"),
           ("arguments", .obj [("path", .str path)])]) "filesystem"

/-- MCPClient.git_status, lines 206-214. -/
def MCPClientState.git_status (c : MCPClientState) (repo_path : String) :
    Json × MCPClientState :=
  c.send_mcp_request "tools/call"
    (.obj [("name", .str "git_status"),
           ("arguments", .obj [("repo_path", .str repo_path)])]) "git"

/-- process.terminate() followed by process.wait(): the child stops. -/
def terminateWait (p : Proc) : Proc := ⟨p.stdoutLines, p.sent, false⟩

/-- MCPClient.close, lines 266-281: terminate and wait each present
process and set both fields to None. The returned list collects the
final states of the processes that were registered. -/
def MCPClientState.close (c : MCPClientState) : MCPClientState × List Proc :=
  (⟨none, none⟩,
   (c.filesystem_process.map terminateWait).toList ++
     (c.git_process.map terminateWait).toList)

/-- GitAnalyzerClient state: its single optional child process. -/
structure GitAnalyzerClientState where
  analyzer_process : Option Proc

/-- GitAnalyzerClient.send_mcp_request, git_analyzer_client.py lines
35-74: identical to the MCPClient version, with the Git Analyzer
not-started message. -/
def GitAnalyzerClientState.send_mcp_request (c : GitAnalyzerClientState)
    (method : String) (params : Json) : Json × GitAnalyzerClientState :=
  let rp := sendMcpRequestOpt c.analyzer_process "Git Analyzer" method params
  (rp.1, ⟨rp.2⟩)

/-- GitAnalyzerClient.close, lines 163-173. -/
def GitAnalyzerClientState.close (c : GitAnalyzerClientState) :
    GitAnalyzerClientState × List Proc :=
  (⟨none⟩, (c.analyzer_process.map terminateWait).toList)

/-- Whether each backend of MCPChatbot would start successfully
(filesystem and git spawns plus git handshake, analyzer spawn, weather
health check). -/
structure BackendStartOutcome where
  fsOk : Bool
  gitOk : Bool
  analyzerOk : Bool
  weatherOk : Bool

/-- MCPChatbot.initialize, mcp_chatbot.py lines 53-84: start the
backends in order filesystem, git, git analyzer, weather, returning
False as soon as one fails. The second component records which backends
a run attempts to start, in order. -/
def chatbotInit (o : BackendStartOutcome) : Bool × List String :=
  if o.fsOk = false then (false, ["filesystem"])
  else if o.gitOk = false then (false, ["filesystem", "git"])
  else if o.analyzerOk = false then
    (false, ["filesystem", "git", "git_analyzer"])
  else if o.weatherOk = false then
    (false, ["filesystem", "git", "git_analyzer", "weather"])
  else (true, ["filesystem", "git", "git_analyzer", "weather"])

/-- The tool names dispatched by the if/elif chain of
MCPServer.handle_request, git_analyzer_server.py lines 789-820. -/
def knownTools : List String :=
  ["analyze_repository", "get_code_metrics", "detect_smells",
   "analyze_contributors", "get_hotspots", "generate_report"]

/-- Abstraction of the GitAnalyzerServer tool implementations invoked by
handle_request (self.analyzer.analyze_repository and friends, including
their per-tool arguments.get defaults): given the tool name and the
arguments object, either a result value or the message of a raised
exception. -/
def ToolEnv : Type := String → Json → Except String Json

/-- The result response literal of handle_request, lines 827-831. -/
def mkResultResponse (rid result : Json) : Json :=
  .obj [("jsonrpc", .str "2.0"), ("id", rid), ("result", result)]

/-- The error response literals of handle_request, lines 822-826,
833-837 and 841-845. -/
def mkErrorResponse (rid : Json) (code : Int) (msg : String) : Json :=
  .obj [("jsonrpc", .str "2.0"), ("id", rid),
        ("error", .obj [("code", .int code), ("message", .str msg)])]

/-- MCPServer.handle_request, git_analyzer_server.py lines 778-845.
Returns none when the argument is not a dictionary: request.get then
raises AttributeError, the except branch raises again on
request.get("id"), and the exception escapes handle_request. For a
dictionary request: a non-"tools/call" method yields the -32601 error;
under "tools/call", a non-dictionary params raises AttributeError at
params.get, caught as the -32603 error; an unknown or missing tool name
yields -32601; a known tool is run through the environment, a raised
exception becoming the -32603 error with the exception message. -/
def handleRequest (env : ToolEnv) (req : Json) : Option Json :=
  match req with
  | .obj kvs =>
    some (match jlookup kvs "method" with
      | some (.str "tools/call") =>
        (match (Json.obj kvs).getD "params" (.obj []) with
         | .obj pkvs =>
           (match jlookup pkvs "name" with
            | some (.str toolName) =>
              if toolName ∈ knownTools then
                (match env toolName
                    ((Json.obj pkvs).getD "arguments" (.obj [])) with
                 | .ok result =>
                   mkResultResponse ((Json.obj kvs).getD "id" .null) result
                 | .error e =>
                   mkErrorResponse ((Json.obj kvs).getD "id" .null) (-32603) e)
              else
                mkErrorResponse ((Json.obj kvs).getD "id" .null) (-32601)
                  "Method not found"
            | _ =>
              mkErrorResponse ((Json.obj kvs).getD "id" .null) (-32601)
                "Method not found")
         | _ =>
           mkErrorResponse ((Json.obj kvs).getD "id" .null) (-32603)
             "params object has no attribute get")
      | _ =>
        mkErrorResponse ((Json.obj kvs).getD "id" .null) (-32601)
          "Method not found")
  | _ => none

/-- Python str.startswith. -/
def strStartsWith (s p : String) : Bool := p.data.isPrefixOf s.data

/-- os.path.join(base, p) for a base without trailing slash: an
absolute p discards base. -/
def pathJoin (base p : String) : String :=
  if strStartsWith p "/" then p else base ++ "/" ++ p

/-- Split a path on the slash character, dropping empty segments. -/
def splitSlashAux : List Char → List Char → List String
  | cur, [] => [String.mk cur.reverse]
  | cur, c :: rest =>
    if c = '/' then String.mk cur.reverse :: splitSlashAux [] rest
    else splitSlashAux (c :: cur) rest

/-- Path segments of a path string. -/
def splitSlash (s : String) : List String :=
  (splitSlashAux [] s.data).filter (fun seg => seg ≠ "")

/-- Resolve "." and ".." segments of an absolute path, ".." above the
root staying at the root, as os.path.normpath does. -/
def normSegsAux : List String → List String → List String
  | acc, [] => acc.reverse
  | acc, seg :: rest =>
    if seg = "." then normSegsAux acc rest
    else if seg = ".." then normSegsAux (acc.drop 1) rest
    else normSegsAux (seg :: acc) rest

/-- os.path.abspath on an already absolute path: normalization. -/
def normalizeAbs (p : String) : String :=
  "/" ++ String.intercalate "/" (normSegsAux [] (splitSlash p))

/-- The security check of filesystem_client.py (lines 28, 93, 144,
212): a plain string prefix test of the absolute resolved path against
base_path. -/
def securityCheckPasses (basePath filePath : String) : Bool :=
  strStartsWith (normalizeAbs (pathJoin basePath filePath)) basePath

/-- Modelled from the claim wording: a resolved absolute path lies
under a base directory when it is the base itself or a path inside it,
segment boundary respected. -/
def liesUnder (basePath p : String) : Bool :=
  p == basePath || strStartsWith p (basePath ++ "/")

/-- The filesystem as the FilesystemMCPClient operations observe it:
existence, file-ness and content at an OS-resolved absolute path. -/
structure FsEnv where
  pathExists : String → Bool
  isFile : String → Bool
  content : String → String

/-- A side effect performed on the real filesystem. -/
inductive FsAction where
  | readAct (p : String)
deriving DecidableEq

/-- len(content.splitlines()) restricted to newline characters. -/
def countLinesAux : Bool → List Char → Nat
  | pending, [] => if pending then 1 else 0
  | _, c :: rest =>
    if c = '\n' then 1 + countLinesAux false rest
    else countLinesAux true rest

/-- Number of lines of a string under splitlines. -/
def countLines (s : String) : Nat := countLinesAux false s.data

/-- FilesystemMCPClient.read_file, filesystem_client.py lines 14-76:
join the path onto base_path, run the startswith security check (a
failure raises ValueError, caught by the except branch as the
access-denied error dictionary), then the existence and file checks,
then the actual read. The second component lists the reads performed
on the filesystem; the OS resolves the unnormalized full path, so env
queries and the read use the normalized path. -/
def read_file (env : FsEnv) (basePath filePath : String) :
    Json × List FsAction :=
  let fullPath := pathJoin basePath filePath
  let resolved := normalizeAbs fullPath
  if (strStartsWith resolved basePath) = false then
    (.obj [("success", .bool false),
           ("error", .str "Access denied: Path outside allowed directory"),
           ("content", .null)], [])
  else if env.pathExists resolved = false then
    (.obj [("success", .bool false),
           ("error", .str ("File not found: " ++ filePath)),
           ("content", .null)], [])
  else if env.isFile resolved = false then
    (.obj [("success", .bool false),
           ("error", .str ("Path is not a file: " ++ filePath)),
           ("content", .null)], [])
  else
    let content := env.content resolved
    (.obj [("success", .bool true), ("content", .str content),
           ("file_path", .str filePath), ("size", .int content.length),
           ("lines", .int (countLines content))],
     [.readAct resolved])

/-- The normalized tagged-result shape of the spec: an object whose
success key is a boolean, with a data key when true and an error key
when false. -/
def taggedResultShape (j : Json) : Bool :=
  match j.get? "success" with
  | some (.bool true) => j.hasKey "data"
  | some (.bool false) => j.hasKey "error"
  | _ => false

/-- Whether a sent message is a tools/call request. -/
def isToolCallMsg (j : Json) : Bool :=
  match j.get? "method" with
  | some (.str "tools/call") => true
  | _ => false

/-- Whether a sent message is an initialize request. -/
def isInitMsg (j : Json) : Bool :=
  match j.get? "method" with
  | some (.str "initialize") => true
  | _ => false

/-- Every tools/call message in a stdin trace is preceded by an
initialize message (a necessary condition of the handshake-first
claim); the flag records whether an initialize was already seen. -/
def toolCallsAfterInit : Bool → List Json → Bool
  | _, [] => true
  | seenInit, m :: rest =>
    if isToolCallMsg m then seenInit && toolCallsAfterInit seenInit rest
    else toolCallsAfterInit (seenInit || isInitMsg m) rest

/-- A response carries exactly one of the result and error keys. -/
def exactlyOneOfResultError (j : Json) : Bool :=
  j.hasKey "result" != j.hasKey "error"

/-- An error payload carries an integer code and a string message. -/
def errorPayloadShape (e : Json) : Bool :=
  match e.get? "code", e.get? "message" with
  | some (.int _), some (.str _) => true
  | _, _ => false

/-- If a response carries an error payload, that payload is well
formed. -/
def errorWellFormed (j : Json) : Bool :=
  match j.get? "error" with
  | none => true
  | some e => errorPayloadShape e

/-- Modelled from the spec: a timeout failure is a normalized result
whose error is the string "timeout" or an object whose reason is
"timeout" (CallError with reason timeout). -/
def isTimeoutError (j : Json) : Bool :=
  match j.get? "error" with
  | some (.str s) => s == "timeout"
  | some e =>
    match e.get? "reason" with
    | some (.str s) => s == "timeout"
    | _ => false
  | none => false

/-- The correlation id field of a request, null when absent. -/
def requestId (j : Json) : Json := j.getD "id" .null

/-- A backend response line with id 1 and an empty result object. -/
def okLine : ReadLine :=
  .json (.obj [("jsonrpc", .str "2.0"), ("id", .int 1), ("result", .obj [])])

/-- A backend response line with the non-matching id 999 and a
distinctive result payload. -/
def strayLine : ReadLine :=
  .json (.obj [("jsonrpc", .str "2.0"), ("id", .int 999),
               ("result", .obj [("x", .int 1)])])

/-- A backend response line with the matching id 1 and a different
result payload. -/
def matchLine : ReadLine :=
  .json (.obj [("jsonrpc", .str "2.0"), ("id", .int 1),
               ("result", .obj [("y", .int 2)])])

/-- The stdin trace grows by exactly the one id-1 request on every
send, whatever the response stream holds. -/
theorem sendMcpRequestOn_sent (p : Proc) (method : String) (params : Json) :
    (sendMcpRequestOn p method params).2.sent =
      p.sent ++ [mkRequest method params] := by
  obtain ⟨lines, sent, running⟩ := p
  cases lines with
  | nil => rfl
  | cons l rest =>
    cases l with
    | malformed msg => rfl
    | json resp =>
      cases resp <;>
        first
        | rfl
        | (simp only [sendMcpRequestOn]; split <;> rfl)

/-- Every result of the per-process send has the normalized tagged
shape. -/
theorem taggedResultShape_sendOn (p : Proc) (method : String)
    (params : Json) :
    taggedResultShape (sendMcpRequestOn p method params).1 = true := by
  obtain ⟨lines, sent, running⟩ := p
  cases lines with
  | nil => rfl
  | cons l rest =>
    cases l with
    | malformed msg => rfl
    | json resp =>
      cases resp <;>
        first
        | rfl
        | (simp only [sendMcpRequestOn]; split <;> rfl)

/-- C1: the claim as stated is false on the code. The id field of every
request is the literal 1 (mcp_client.py line 128, git_analyzer_client.py
line 44), so after two git_status calls on one started git handle the
two requests in its stdin trace carry the same correlation id 1: the
ids are neither strictly increasing nor pairwise distinct. -/
theorem C1_counterexample :
    (let s0 : MCPClientState := ⟨none, some ⟨[okLine, okLine], [], true⟩⟩
     let s2 := ((s0.git_status ".").2.git_status ".").2
     s2.git_process.map (fun p => p.sent.map requestId)) =
      some [Json.int 1, Json.int 1] := rfl

/-- C1 amended: every request a client sends on a handle carries the
constant correlation id 1, so all requests on a handle share one id;
each send appends exactly one such request to the stdin trace. -/
theorem C1_constant_id (p : Proc) (method : String) (params : Json) :
    (sendMcpRequestOn p method params).2.sent =
      p.sent ++ [mkRequest method params] ∧
    requestId (mkRequest method params) = Json.int 1 :=
  ⟨sendMcpRequestOn_sent p method params, rfl⟩

/-- C2: the claim as stated is false on the code. With a stream whose
first line carries the non-matching id 999 and whose second line is the
matching id-1 response, git_status returns the payload of the id-999
line and leaves the matching line unread: nothing is discarded and the
returned payload does not come from the matching line. -/
theorem C2_counterexample :
    (let s0 : MCPClientState := ⟨none, some ⟨[strayLine, matchLine], [], true⟩⟩
     let r := s0.git_status "."
     (r.1, r.2.git_process.map (fun p => p.stdoutLines))) =
      (mkOk (.obj [("x", .int 1)]), some [matchLine]) := rfl

/-- C2 amended: the client reads exactly one line per call and never
compares the correlation id of that line to the id of the request it
sent: for any first line parsing to a dictionary without an error key,
whatever its id, the call returns that dictionary's result field
wrapped as success and consumes only that line. -/
theorem C2_single_read (sent : List Json) (running : Bool)
    (method : String) (params : Json) (kvs : List (String × Json))
    (rest : List ReadLine)
    (h : jlookup kvs "error" = none) :
    sendMcpRequestOn ⟨.json (.obj kvs) :: rest, sent, running⟩
        method params =
      (mkOk ((Json.obj kvs).getD "result" (.obj [])),
       ⟨rest, sent ++ [mkRequest method params], running⟩) := by
  simp only [sendMcpRequestOn, h]

/-- C2 witness: the single-read behaviour at a concrete line whose id
is 999. -/
theorem C2_single_read_witness :
    sendMcpRequestOn
        ⟨[.json (.obj [("id", .int 999), ("result", .str "r")])], [], true⟩
        "tools/call" .null =
      (mkOk (.str "r"),
       ⟨[], [mkRequest "tools/call" .null], true⟩) :=
  C2_single_read [] true "tools/call" .null
    [("id", .int 999), ("result", .str "r")] [] rfl

/-- C3: the claim as stated is false on the code. On a started handle
whose backend never writes a response line and closes its stream, the
call returns the plain no-response error, which is not a timeout error;
the client has no timeout mechanism at all. -/
theorem C3_counterexample :
    (let r := (MCPClientState.mk none (some ⟨[], [], true⟩)).git_status "."
     (r.1, isTimeoutError r.1)) =
      (mkErrStr "No response from server", false) := rfl

/-- C3 amended: the client implements no timeout; when the backend
writes no response line and its stream is closed, the call returns the
no-response error (not a timeout error) after having written the
request. A backend that keeps the stream open without responding blocks
the call indefinitely. -/
theorem C3_no_response_error (sent : List Json) (running : Bool)
    (method : String) (params : Json) :
    sendMcpRequestOn ⟨[], sent, running⟩ method params =
      (mkErrStr "No response from server",
       ⟨[], sent ++ [mkRequest method params], running⟩) ∧
    isTimeoutError (mkErrStr "No response from server") = false :=
  ⟨rfl, rfl⟩

/-- C4: the claim as stated is false on the code. When the filesystem
backend fails to start, MCPChatbot.initialize returns False
immediately and the git backend (and every later one) is never
attempted, so a single failed backend does prevent the others from
starting. -/
theorem C4_counterexample :
    chatbotInit ⟨false, true, true, true⟩ = (false, ["filesystem"]) ∧
    "git" ∉ (chatbotInit ⟨false, true, true, true⟩).2 := by decide

/-- C4 amended: initialize is fail-fast: it returns True exactly when
all four backends succeed, and a failure aborts the sequence, leaving
the later backends unattempted. -/
theorem C4_fail_fast (o : BackendStartOutcome) :
    (chatbotInit o).1 = (o.fsOk && o.gitOk && o.analyzerOk && o.weatherOk) ∧
    (o.fsOk = false → (chatbotInit o).2 = ["filesystem"]) ∧
    (o.gitOk = false →
      "git_analyzer" ∉ (chatbotInit o).2 ∧ "weather" ∉ (chatbotInit o).2) := by
  obtain ⟨a, b, c, d⟩ := o
  cases a <;> cases b <;> cases c <;> cases d <;> decide

/-- C4 witness: with a failed git backend, initialize reports failure
and never attempts the analyzer backend. -/
theorem C4_fail_fast_witness :
    (chatbotInit ⟨true, false, true, true⟩).1 = false ∧
    "git_analyzer" ∉ (chatbotInit ⟨true, false, true, true⟩).2 :=
  ⟨(C4_fail_fast ⟨true, false, true, true⟩).1,
   ((C4_fail_fast ⟨true, false, true, true⟩).2.2 rfl).1⟩

/-- C5: the claim as stated is false on the code.
start_filesystem_server performs no handshake, and nothing checks an
initialization flag before sending: after a successful filesystem start
followed by one list_files call, the only message ever written to the
filesystem handle is a tools/call request, with no initialize message
before it. -/
theorem C5_counterexample :
    (let s := startFilesystemServer true [okLine] ⟨none, none⟩
     let r := s.2.filesystem_list_files "."
     (s.1,
      r.2.filesystem_process.map
        (fun p => (p.sent.map isToolCallMsg, toolCallsAfterInit false p.sent)))) =
      (true, some ([true], false)) := rfl

/-- C5 amended: only the git handle is brought through the handshake:
a successful start_git_server leaves exactly the initialize request
followed by the initialized notification in its stdin trace, while
start_filesystem_server leaves the filesystem stdin trace empty, and
subsequent tool calls are sent without any initialization check. -/
theorem C5_only_git_handshaken (backend fsBackend : List ReadLine)
    (c : MCPClientState)
    (h : (startGitServer true backend c).1 = true) :
    ((startGitServer true backend c).2.git_process.map Proc.sent) =
      some [initRequest, initDoneNotification] ∧
    ((startFilesystemServer true fsBackend c).2.filesystem_process.map
        Proc.sent) = some [] := by
  refine ⟨?_, rfl⟩
  cases backend with
  | nil => exact absurd h (by simp [startGitServer, initMcpConnection,
      initMcpConnectionOn, spawn])
  | cons l rest =>
    cases l with
    | malformed msg => exact absurd h (by simp [startGitServer,
        initMcpConnection, initMcpConnectionOn, spawn])
    | json resp =>
      simp only [startGitServer, initMcpConnection, initMcpConnectionOn,
        spawn, if_true] at h ⊢
      cases resp with
      | obj kvs =>
        cases hk : jlookup kvs "error" with
        | some e => simp [hk] at h
        | none => simp [hk]
      | str s =>
        cases hc : strContains s "error" with
        | true => simp [hc] at h
        | false => simp [hc]
      | arr xs =>
        cases ha : listHasStrError xs with
        | true => simp [ha] at h
        | false => simp [ha]
      | null => simp at h
      | bool b => simp at h
      | int n => simp at h

/-- C5 witness: the handshake trace at a concrete backend that answers
the initialize request without an error key. -/
theorem C5_only_git_handshaken_witness :
    ((startGitServer true [okLine] ⟨none, none⟩).2.git_process.map
        Proc.sent) = some [initRequest, initDoneNotification] ∧
    ((startFilesystemServer true [] ⟨none, none⟩).2.filesystem_process.map
        Proc.sent) = some [] :=
  C5_only_git_handshaken [okLine] [] ⟨none, none⟩ rfl

/-- C6: confirmed. Whatever the handle state (absent process, closed
stream, malformed line, error payload or success payload), every send
returns a dictionary of the tagged success/data-or-error shape, for
both the MCPClient paths and the GitAnalyzerClient path; in the
embedding the functions are total, reflecting the enclosing
try/except that converts raised exceptions into the same shape. -/
theorem C6_normalized_result_shape (proc : Option Proc)
    (serverName method serverType : String) (params : Json)
    (c : MCPClientState) (g : GitAnalyzerClientState) :
    taggedResultShape (sendMcpRequestOpt proc serverName method params).1 =
      true ∧
    taggedResultShape (c.send_mcp_request method params serverType).1 = true ∧
    taggedResultShape (g.send_mcp_request method params).1 = true := by
  have hopt : ∀ (pr : Option Proc) (nm : String),
      taggedResultShape (sendMcpRequestOpt pr nm method params).1 = true := by
    intro pr nm
    cases pr with
    | none => rfl
    | some p => exact taggedResultShape_sendOn p method params
  refine ⟨hopt proc serverName, ?_, ?_⟩
  · unfold MCPClientState.send_mcp_request
    split
    · exact hopt c.filesystem_process "Filesystem"
    · exact hopt c.git_process "Git"
  · exact hopt g.analyzer_process "Git Analyzer"

/-- C7: confirmed. close clears both process fields, every process it
terminated is no longer running, and a second close on the resulting
state is a no-op that terminates nothing; likewise for the analyzer
client. The embedding is total, reflecting the try/except around the
terminate/wait calls. -/
theorem C7_close_idempotent (c : MCPClientState) (g : GitAnalyzerClientState) :
    c.close.1.filesystem_process = none ∧
    c.close.1.git_process = none ∧
    c.close.2.all (fun p => !p.running) = true ∧
    c.close.1.close = (c.close.1, []) ∧
    g.close.1.analyzer_process = none ∧
    g.close.2.all (fun p => !p.running) = true ∧
    g.close.1.close = (g.close.1, []) := by
  obtain ⟨fs, git⟩ := c
  obtain ⟨ap⟩ := g
  cases fs <;> cases git <;> cases ap <;>
    exact ⟨rfl, rfl, rfl, rfl, rfl, rfl, rfl⟩

/-- C8: confirmed. Against a started git handle whose backend answers
the tools/call with the files-empty result, git_status with repository
path "." returns the success dictionary wrapping that payload. -/
theorem C8_git_status_roundtrip :
    ((MCPClientState.mk none
        (some ⟨[.json (.obj [("jsonrpc", .str "2.0"), ("id", .int 1),
                             ("result", .obj [("files", .arr [])])])],
               [], true⟩)).git_status ".").1 =
      .obj [("success", .bool true),
            ("data", .obj [("files", .arr [])])] := rfl

/-- Structural facts about the result response literal of
handle_request: its id is the given one, it has a result key and no
error key. -/
theorem mkResultResponse_good (rid result : Json) :
    (mkResultResponse rid result).getD "id" .null = rid ∧
    exactlyOneOfResultError (mkResultResponse rid result) = true ∧
    errorWellFormed (mkResultResponse rid result) = true := ⟨rfl, rfl, rfl⟩

/-- Structural facts about the error response literal of
handle_request: its id is the given one, it has an error key and no
result key, and the payload carries an integer code and a string
message. -/
theorem mkErrorResponse_good (rid : Json) (code : Int) (msg : String) :
    (mkErrorResponse rid code msg).getD "id" .null = rid ∧
    exactlyOneOfResultError (mkErrorResponse rid code msg) = true ∧
    errorWellFormed (mkErrorResponse rid code msg) = true := ⟨rfl, rfl, rfl⟩

/-- C9: confirmed. For every dictionary request and every behaviour of
the analyzer tools, handle_request returns a response whose id equals
the request id (null when absent, as request.get yields), which carries
exactly one of a result or an error payload, and whose error payload,
when present, has an integer code and a string message. -/
theorem C9_response_shape (env : ToolEnv) (kvs : List (String × Json)) :
    ∃ resp, handleRequest env (.obj kvs) = some resp ∧
      resp.getD "id" .null = (Json.obj kvs).getD "id" .null ∧
      exactlyOneOfResultError resp = true ∧
      errorWellFormed resp = true := by
  simp only [handleRequest]
  repeat' split
  all_goals
    first
    | exact ⟨_, rfl, (mkResultResponse_good _ _).1,
        (mkResultResponse_good _ _).2.1, (mkResultResponse_good _ _).2.2⟩
    | exact ⟨_, rfl, (mkErrorResponse_good _ _ _).1,
        (mkErrorResponse_good _ _ _).2.1, (mkErrorResponse_good _ _ _).2.2⟩

/-- C10: the path guard is a plain string prefix test and does not
confine to the base directory. With base path /tmp/foo, the relative
path ../foobar resolves to /tmp/foobar, which does not lie under
/tmp/foo; the startswith check nevertheless passes, and read_file
reads the outside file and returns it as a success, against the
intent of the security-check comment in the source. -/
theorem C10_guard_escape_read :
    liesUnder "/tmp/foo" (normalizeAbs (pathJoin "/tmp/foo" "../foobar")) =
      false ∧
    securityCheckPasses "/tmp/foo" "../foobar" = true ∧
    read_file
        ⟨fun p => p == "/tmp/foobar", fun p => p == "/tmp/foobar",
         fun _ => "secret"⟩
        "/tmp/foo" "../foobar" =
      (.obj [("success", .bool true), ("content", .str "secret"),
             ("file_path", .str "../foobar"), ("size", .int 6),
             ("lines", .int 1)],
       [.readAct "/tmp/foobar"]) :=
  ⟨by decide, by decide, rfl⟩
